import Mathlib

/-
  Verification development for the vwradio repository excerpt.

  The repository excerpt contains:
  - avr/faceplate.h : declarations of the faceplate SPI display driver
  - kwp1281_tool/firmware/Makefile : AVR firmware build rules
  - two disassembly-verification Makefiles (premium_4 disasm directories)

  The faceplate driver bodies are not part of the excerpt (only the header
  declarations are), so the driver's behaviour is modelled from the
  specification's words; the Makefiles and the header are embedded from the
  source text directly.
-/

/- ----------------------------------------------------------------- -/
/- Faceplate driver model (bodies absent from the excerpt)           -/
/- ----------------------------------------------------------------- -/

/-- Modelled from the spec: the driver mirrors an in-memory display/LED
state (`upd_state_t`, an external structure treated as a black box, here an
arbitrary type `U`) onto hardware.  `lastSent` caches the previously
transmitted state for the dirty check; `spiLog` records every SPI
transmission performed, in order. -/
structure FaceplateIO (U : Type) where
  lastSent : Option U
  spiLog : List U
  deriving DecidableEq

/-- Modelled from the spec: `faceplate_send_upd_command()` transmits a
formatted command derived from the current state to the display controller.
The body is not in the excerpt; the model appends the transmitted state to
the SPI log and remembers it as the last transmitted state. -/
def faceplate_send_upd_command {U : Type} (st : FaceplateIO U) (s : U) :
    FaceplateIO U :=
  { lastSent := some s, spiLog := st.spiLog ++ [s] }

/-- Modelled from the spec: `faceplate_update_from_upd_if_dirty(upd_state_t
*state)` reads the shared state, compares it against the previously
transmitted state, and calls the send path only if it changed.  The state
argument is read-only input; the second component of the result is the
value of `*state` after the call. -/
def faceplate_update_from_upd_if_dirty {U : Type} [DecidableEq U]
    (st : FaceplateIO U) (s : U) : FaceplateIO U × U :=
  if st.lastSent = some s then (st, s)
  else (faceplate_send_upd_command st s, s)

/-- Model of the SPI peripheral configuration registers touched by the
driver's initialization. -/
structure SpiConfig where
  spiEnabled : Bool
  masterMode : Bool
  clockDivider : Nat
  deriving DecidableEq

/-- Modelled from the spec: `faceplate_spi_init()` configures the SPI
peripheral for communication with the display controller; it writes a fixed
configuration, independent of the peripheral's previous state. -/
def faceplate_spi_init (_c : SpiConfig) : SpiConfig :=
  { spiEnabled := true, masterMode := true, clockDivider := 16 }

/- ----------------------------------------------------------------- -/
/- Embedding of avr/faceplate.h                                      -/
/- ----------------------------------------------------------------- -/

/-- C return/parameter types occurring in faceplate.h. -/
inductive CType where
  | void : CType
  | ptr_upd_state_t : CType
  deriving DecidableEq, BEq

/-- One preprocessor-relevant line of a C header. -/
inductive HLine where
  | d_ifndef (sym : String)
  | d_define (sym : String)
  | d_include (file : String)
  | d_decl (ret : CType) (name : String) (params : List CType)
  | d_endif
  deriving DecidableEq

/-- The lines of avr/faceplate.h, in source order. -/
def faceplate_h : List HLine :=
  [ .d_ifndef ("FACEPLATE_H"),
    .d_define ("FACEPLATE_H"),
    .d_include ("stdint.h"),
    .d_include ("updemu.h"),
    .d_decl CType.void ("faceplate_spi_init") [],
    .d_decl CType.void ("faceplate_clear_display") [],
    .d_decl CType.void ("faceplate_send_upd_command") [],
    .d_decl CType.void ("faceplate_update_from_upd_if_dirty")
      [CType.ptr_upd_state_t],
    .d_endif ]

/-- The function declarations of a header, as (return type, name, params). -/
def declsOf (ls : List HLine) : List (CType × String × List CType) :=
  ls.filterMap (fun l =>
    match l with
    | .d_decl r n ps => some (r, n, ps)
    | _ => none)

/-- Preprocessor state: the set of defined symbols and the declarations
emitted so far (by name). -/
structure PpState where
  defined : List String
  emitted : List String
  deriving DecidableEq

/-- One pass of the C preprocessor over header lines.  The second argument
is the depth of enclosing skipped conditional regions: while it is
positive, nothing is emitted or defined. -/
def ppRun : PpState → Nat → List HLine → PpState
  | s, _, [] => s
  | s, 0, .d_ifndef m :: rest =>
      if m ∈ s.defined then ppRun s 1 rest else ppRun s 0 rest
  | s, skip+1, .d_ifndef _ :: rest => ppRun s (skip+2) rest
  | s, 0, .d_define m :: rest =>
      ppRun { s with defined := s.defined ++ [m] } 0 rest
  | s, skip+1, .d_define _ :: rest => ppRun s (skip+1) rest
  | s, 0, .d_include _ :: rest => ppRun s 0 rest
  | s, skip+1, .d_include _ :: rest => ppRun s (skip+1) rest
  | s, 0, .d_decl _ n _ :: rest =>
      ppRun { s with emitted := s.emitted ++ [n] } 0 rest
  | s, skip+1, .d_decl _ _ _ :: rest => ppRun s (skip+1) rest
  | s, 0, .d_endif :: rest => ppRun s 0 rest
  | s, skip+1, .d_endif :: rest => ppRun s skip rest

/-- Effect of `#include "faceplate.h"` on the preprocessor state. -/
def includeFaceplate (s : PpState) : PpState := ppRun s 0 faceplate_h

/-- `includeN n` includes faceplate.h `n` times in succession. -/
def includeN : Nat → PpState → PpState
  | 0, s => s
  | n+1, s => includeN n (includeFaceplate s)

/-- Initial preprocessor state of a fresh translation unit. -/
def ppInit : PpState := { defined := [], emitted := [] }

/- ----------------------------------------------------------------- -/
/- Embedding of kwp1281_tool/firmware/Makefile                       -/
/- ----------------------------------------------------------------- -/

/-- A Makefile rule: target name, prerequisite names, and the recipe as a
list of commands, each command a list of argv words. -/
structure MakeRule where
  target : String
  prereqs : List String
  recipe : List (List String)
  deriving DecidableEq

/-- Makefile variable PROJECT=kwp1281. -/
def PROJECT : String := "kwp1281"

/-- Makefile variable MMCU=atmega1284. -/
def MMCU : String := "atmega1284"

/-- Makefile variable F_CPU=20000000. -/
def F_CPU : String := "20000000"

/-- Makefile variable ISPFLAGS=-c atmelice, split into words. -/
def ISPFLAGS : List String := ["-c", "atmelice"]

/-- Makefile variable CFLAGS, split into words with variables expanded. -/
def CFLAGS : List String :=
  ["-mmcu=" ++ MMCU, "-g", "-Wall", "-Os", "-std=c99", "-DF_CPU=" ++ F_CPU]

/-- The rules of kwp1281_tool/firmware/Makefile, with variables expanded.
`sources` stands for `$(wildcard *.c)`, the list of C files present in the
firmware directory, which is not part of the excerpt. -/
def kwp_rules (sources : List String) : List MakeRule :=
  [ { target := PROJECT ++ ".hex",
      prereqs := [PROJECT ++ ".elf"],
      recipe := [ "avr-objcopy" :: ["-j", ".text", "-j", ".data",
                    "-O", "ihex", PROJECT ++ ".elf", PROJECT ++ ".hex"] ] },
    { target := PROJECT ++ ".elf",
      prereqs := sources,
      recipe := [ "avr-gcc" ::
                    (CFLAGS ++ ["-I.", "-o", PROJECT ++ ".elf"] ++ sources) ] },
    { target := "program",
      prereqs := [PROJECT ++ ".hex"],
      recipe := [ "avrdude" :: (ISPFLAGS ++ ["-p", MMCU,
                    "-U", "lfuse:w:0xF7:m", "-U", "hfuse:w:0x92:m",
                    "-U", "efuse:w:0xFF:m"]),
                  "avrdude" :: (ISPFLAGS ++ ["-p", MMCU,
                    "-U", "flash:w:" ++ PROJECT ++ ".hex"]) ] },
    { target := "size",
      prereqs := [PROJECT ++ ".elf"],
      recipe := [ "avr-size" :: ["--mcu=" ++ MMCU, "--format=avr",
                    PROJECT ++ ".elf"] ] },
    { target := "dump",
      prereqs := [PROJECT ++ ".elf"],
      recipe := [ "avr-objdump" :: ["-h", "-S", "-I.", PROJECT ++ ".elf"] ] },
    { target := "clean",
      prereqs := [],
      recipe := [ "find" :: [".", "-depth", "-name", "*.elf",
                    "-print", "-delete"],
                  "find" :: [".", "-depth", "-name", "*.hex",
                    "-print", "-delete"],
                  "find" :: [".", "-depth", "-name", "*.o",
                    "-print", "-delete"],
                  "find" :: [".", "-depth", "-name", "*.pyc",
                    "-print", "-delete"] ] },
    { target := "arduino_mega",
      prereqs := [],
      recipe := [ "avr-gcc" :: (["-DF_CPU=16000000", "-mmcu=atmega2560",
                    "-g", "-Wall", "-Os", "-std=c99", "-I.", "-o",
                    PROJECT ++ ".elf"] ++ sources),
                  "avr-objcopy" :: ["-j", ".text", "-j", ".data",
                    "-O", "ihex", PROJECT ++ ".elf", PROJECT ++ ".hex"],
                  "avrdude" :: ["-cwiring", "-P", "/dev/ttyACM0", "-D",
                    "-p", "atmega2560",
                    "-U", "flash:w:" ++ PROJECT ++ ".hex"] ] },
    { target := "all",
      prereqs := ["clean", PROJECT ++ ".hex", "program"],
      recipe := [] } ]

/-- Look up the rule for a target name. -/
def findRule (rules : List MakeRule) (t : String) : Option MakeRule :=
  rules.find? (fun r => r.target == t)

/-- The recipe of a target's rule (empty when the target has no rule). -/
def ruleRecipe (rules : List MakeRule) (t : String) : List (List String) :=
  ((findRule rules t).map MakeRule.recipe).getD []

/-- The prerequisites of a target's rule. -/
def rulePrereqs (rules : List MakeRule) (t : String) : List String :=
  ((findRule rules t).map MakeRule.prereqs).getD []

/-- Whether every command of a recipe invokes one of the toolchain
binaries avr-gcc, avr-objcopy, avr-size, avr-objdump, avrdude, find. -/
def toolOnly (cmds : List (List String)) : Bool :=
  cmds.all (fun c =>
    ["avr-gcc", "avr-objcopy", "avr-size", "avr-objdump",
     "avrdude", "find"].contains (c.headD ("") ))

/- ----------------------------------------------------------------- -/
/- Embedding of the two disassembly-verification Makefiles           -/
/- ----------------------------------------------------------------- -/

/-- Environment the `diff` recipes run in: the SHA-1 digest of the freshly
assembled out.bin, the contents of the golden `.sha1` files (looked up by
file name), and the exit status of `python checksum.py out.bin` (the
checksum script is not part of the excerpt, so its exit status is an
unconstrained parameter). -/
structure DisasmEnv where
  freshSha1 : String
  golden : String → String
  checksumOk : Bool

/-- Shell state threaded through a diff recipe: the contents of out.sha1
once it has been written. -/
structure ShellSt where
  outSha1 : Option String

/-- The commands occurring in the `diff` recipes of the two Makefiles. -/
inductive DiffCmd where
  | checksum_py
  | sha1_to_out
  | diff_golden (file : String)

/-- Run one command: `none` means a nonzero exit status.
`checksum_py` is `python checksum.py out.bin`; `sha1_to_out` is
`openssl sha1 out.bin | cut -d " " -f 2 > out.sha1`, which writes the fresh
digest into out.sha1; `diff_golden f` is `diff f out.sha1`, which exits
zero exactly when the two files have equal contents. -/
def runCmd (env : DisasmEnv) (st : ShellSt) : DiffCmd → Option ShellSt
  | .checksum_py => if env.checksumOk then some st else none
  | .sha1_to_out => some { outSha1 := some env.freshSha1 }
  | .diff_golden f =>
      match st.outSha1 with
      | none => none
      | some h => if env.golden f == h then some st else none

/-- Run a recipe: make executes the commands in order and stops, failing,
at the first command with nonzero exit status. -/
def runRecipe (env : DisasmEnv) : ShellSt → List DiffCmd → Option ShellSt
  | st, [] => some st
  | st, c :: cs =>
      match runCmd env st c with
      | none => none
      | some st2 => runRecipe env st2 cs

/-- The `diff` recipe of the pu1666a_mainmcu Makefile. -/
def diff_recipe_main : List DiffCmd :=
  [.sha1_to_out, .diff_golden ("pu1666a_mainmcu.sha1")]

/-- The `diff` recipe of the software23 Makefile. -/
def diff_recipe_sw23 : List DiffCmd :=
  [.checksum_py, .sha1_to_out, .diff_golden ("software23.sha1")]

/-- Whether running a recipe from a fresh shell state succeeds. -/
def targetSucceeds (env : DisasmEnv) (r : List DiffCmd) : Bool :=
  (runRecipe env { outSha1 := none } r).isSome

/-- A fixed environment in which out.bin assembles to a digest equal to the
golden software23 digest, but checksum.py exits with a nonzero status. -/
def cexEnv : DisasmEnv :=
  { freshSha1 := "da39a3ee5e6b4b0d3255bfef95601890afd80709",
    golden := fun _ => "da39a3ee5e6b4b0d3255bfef95601890afd80709",
    checksumOk := false }

/-- Glob matching with bounded fuel (structural, kernel-reducible).  A `*`
in the pattern matches any sequence of characters; every other pattern
character matches itself.  The fuel only needs to exceed the sum of the
pattern and string lengths. -/
def globMatchFuel : Nat → List Char → List Char → Bool
  | 0, _, _ => false
  | _+1, [], [] => true
  | _+1, [], _ :: _ => false
  | f+1, '*' :: ps, s =>
      globMatchFuel f ps s ||
        (match s with
         | [] => false
         | _ :: cs => globMatchFuel f ('*' :: ps) cs)
  | _+1, _ :: _, [] => false
  | f+1, p :: ps, c :: cs => p == c && globMatchFuel f ps cs

/-- Whether a file name matches a shell glob pattern. -/
def globMatch (pat s : String) : Bool :=
  globMatchFuel (pat.length + s.length + 1) pat.data s.data

/-- The `clean` target of both disassembly Makefiles, `rm -f out.*`:
removes exactly the files whose names match the glob `out.*`. -/
def clean_target (fs : List String) : List String :=
  fs.filter (fun f => !(globMatch ("out.*") f))

/-- The assembly sources and golden hash files of the two disassembly
directories. -/
def disasmProtected : List String :=
  ["pu1666a_mainmcu.asm", "pu1666a_mainmcu.sha1",
   "software23.asm", "software23.sha1"]

/- ----------------------------------------------------------------- -/
/- Theorems                                                          -/
/- ----------------------------------------------------------------- -/

/-- C1: `faceplate_update_from_upd_if_dirty` invokes the SPI send path if
and only if the incoming state differs from the previously transmitted
state; when the state is unchanged, no SPI transmission occurs (the SPI
log is unchanged). -/
theorem update_if_dirty_sends_iff_changed {U : Type} [DecidableEq U]
    (st : FaceplateIO U) (s : U) :
    (faceplate_update_from_upd_if_dirty st s).1.spiLog =
      (if st.lastSent = some s then st.spiLog
       else (faceplate_send_upd_command st s).spiLog) ∧
    ((faceplate_update_from_upd_if_dirty st s).1.spiLog ≠ st.spiLog ↔
      st.lastSent ≠ some s) := by
  by_cases h : st.lastSent = some s
  · simp [faceplate_update_from_upd_if_dirty, h]
  · refine ⟨by simp [faceplate_update_from_upd_if_dirty, h], ?_⟩
    simp [faceplate_update_from_upd_if_dirty, faceplate_send_upd_command, h]

/-- Concrete instance of the dirty-check theorem: from an initial driver
state (nothing sent yet), updating with state 0 performs a transmission. -/
theorem update_if_dirty_sends_iff_changed_w :
    (faceplate_update_from_upd_if_dirty
      (⟨none, []⟩ : FaceplateIO Nat) 0).1.spiLog ≠ [] :=
  (update_if_dirty_sends_iff_changed (⟨none, []⟩ : FaceplateIO Nat) 0).2.mpr
    (by simp)

/-- C2: calling `faceplate_update_from_upd_if_dirty` twice in succession
with the same state performs at most one SPI transmission in total: the
second call is a no-op and the log grows by at most one entry. -/
theorem update_if_dirty_twice_at_most_one_send {U : Type} [DecidableEq U]
    (st : FaceplateIO U) (s : U) :
    (faceplate_update_from_upd_if_dirty
      (faceplate_update_from_upd_if_dirty st s).1 s).1 =
      (faceplate_update_from_upd_if_dirty st s).1 ∧
    (faceplate_update_from_upd_if_dirty
      (faceplate_update_from_upd_if_dirty st s).1 s).1.spiLog.length ≤
      st.spiLog.length + 1 := by
  by_cases h : st.lastSent = some s
  · constructor
    · simp [faceplate_update_from_upd_if_dirty, h]
    · simp [faceplate_update_from_upd_if_dirty, h]
  · constructor
    · simp [faceplate_update_from_upd_if_dirty, faceplate_send_upd_command, h]
    · simp [faceplate_update_from_upd_if_dirty, faceplate_send_upd_command, h]

/-- C3: `faceplate_update_from_upd_if_dirty` treats `*state` as read-only
input: the value of the pointed-to state after the call equals its value
before the call. -/
theorem update_if_dirty_state_readonly {U : Type} [DecidableEq U]
    (st : FaceplateIO U) (s : U) :
    (faceplate_update_from_upd_if_dirty st s).2 = s := by
  by_cases h : st.lastSent = some s <;>
    simp [faceplate_update_from_upd_if_dirty, h]

/-- C4: `faceplate_spi_init` is idempotent: for every starting peripheral
configuration, initializing twice leaves the SPI configuration exactly as
initializing once does. -/
theorem faceplate_spi_init_idempotent (c : SpiConfig) :
    faceplate_spi_init (faceplate_spi_init c) = faceplate_spi_init c := rfl

/-- C5: every function of the faceplate driver's public contract is
declared with return type void, and the contract consists of exactly the
four declared functions. -/
theorem faceplate_h_decls_all_void :
    (declsOf faceplate_h).map (fun d => d.2.1) =
      ["faceplate_spi_init", "faceplate_clear_display",
       "faceplate_send_upd_command", "faceplate_update_from_upd_if_dirty"] ∧
    (declsOf faceplate_h).all (fun d => d.1 == CType.void) = true ∧
    declsOf faceplate_h =
      [(CType.void, "faceplate_spi_init", []),
       (CType.void, "faceplate_clear_display", []),
       (CType.void, "faceplate_send_upd_command", []),
       (CType.void, "faceplate_update_from_upd_if_dirty",
         [CType.ptr_upd_state_t])] :=
  ⟨rfl, rfl, rfl⟩

/-- C6: the firmware build produces an Intel HEX image via avr-gcc (elf)
followed by avr-objcopy -O ihex, targets the atmega1284, and the program
target runs avrdude writing lfuse=0xF7, hfuse=0x92, efuse=0xFF before
flashing the hex image. -/
theorem kwp_build_and_program (srcs : List String) :
    MMCU = "atmega1284" ∧
    CFLAGS.contains ("-mmcu=atmega1284") = true ∧
    rulePrereqs (kwp_rules srcs) "kwp1281.hex" = ["kwp1281.elf"] ∧
    ruleRecipe (kwp_rules srcs) "kwp1281.hex" =
      [["avr-objcopy", "-j", ".text", "-j", ".data", "-O", "ihex",
        "kwp1281.elf", "kwp1281.hex"]] ∧
    ruleRecipe (kwp_rules srcs) "kwp1281.elf" =
      ["avr-gcc" :: (CFLAGS ++ ["-I.", "-o", "kwp1281.elf"] ++ srcs)] ∧
    rulePrereqs (kwp_rules srcs) "program" = ["kwp1281.hex"] ∧
    ruleRecipe (kwp_rules srcs) "program" =
      [["avrdude", "-c", "atmelice", "-p", "atmega1284",
        "-U", "lfuse:w:0xF7:m", "-U", "hfuse:w:0x92:m", "-U", "efuse:w:0xFF:m"],
       ["avrdude", "-c", "atmelice", "-p", "atmega1284",
        "-U", "flash:w:kwp1281.hex"]] :=
  ⟨rfl, rfl, rfl, rfl, rfl, rfl, rfl⟩

/-- C7: each of the six CLI targets has a rule, and every command of every
one of those rules invokes one of the toolchain binaries avr-gcc,
avr-objcopy, avr-size, avr-objdump, avrdude, find. -/
theorem kwp_cli_targets_tool_wrappers (srcs : List String) :
    (["program", "size", "dump", "clean", "arduino_mega", "all"].all
      (fun t => (findRule (kwp_rules srcs) t).isSome &&
                toolOnly (ruleRecipe (kwp_rules srcs) t))) = true := rfl

/-- C8 counterexample: in the software23 Makefile, the diff target can
fail even though the fresh SHA-1 digest equals the golden digest, because
the recipe first runs checksum.py, whose nonzero exit status aborts the
target; so target success is not equivalent to digest equality there. -/
theorem diff_sw23_not_iff_digest :
    (cexEnv.golden ("software23.sha1") == cexEnv.freshSha1) = true ∧
    targetSucceeds cexEnv diff_recipe_sw23 = false :=
  ⟨rfl, rfl⟩

/-- C8 (amended): in the pu1666a_mainmcu Makefile the diff target succeeds
exactly when the fresh digest equals the golden digest; in the software23
Makefile it succeeds exactly when checksum.py exits zero and the fresh
digest equals the golden digest — so in both, a digest mismatch makes the
target fail. -/
theorem diff_targets_digest_check (env : DisasmEnv) :
    targetSucceeds env diff_recipe_main =
      (env.golden ("pu1666a_mainmcu.sha1") == env.freshSha1) ∧
    targetSucceeds env diff_recipe_sw23 =
      (env.checksumOk && (env.golden ("software23.sha1") == env.freshSha1)) := by
  constructor
  · cases hb : env.golden ("pu1666a_mainmcu.sha1") == env.freshSha1 <;>
      simp [targetSucceeds, runRecipe, runCmd, diff_recipe_main, hb]
  · cases hc : env.checksumOk <;>
      cases hb : env.golden ("software23.sha1") == env.freshSha1 <;>
        simp [targetSucceeds, runRecipe, runCmd, diff_recipe_sw23, hc, hb]

/-- C9: the clean target of the disassembly Makefiles removes only files
matching the glob out.*; the assembly sources and golden hash files, being
in the file system, survive cleaning. -/
theorem clean_removes_only_out_files (fs : List String) :
    (∀ f ∈ fs, f ∉ clean_target fs → globMatch ("out.*") f = true) ∧
    (∀ n ∈ disasmProtected, n ∈ fs → n ∈ clean_target fs) := by
  constructor
  · intro f hf hnot
    by_contra hg
    rw [Bool.not_eq_true] at hg
    exact hnot (by simp [clean_target, List.mem_filter, hf, hg])
  · intro n hn hfs
    have hg : globMatch ("out.*") n = false := by
      fin_cases hn <;> rfl
    simp [clean_target, List.mem_filter, hfs, hg]

/-- Concrete instance of the clean-target theorem: out.bin matches the
glob (and is thus eligible for removal), while software23.asm survives a
clean of a directory holding it alongside out.bin. -/
theorem clean_removes_only_out_files_w :
    globMatch ("out.*") "out.bin" = true ∧
    "software23.asm" ∈ clean_target ["software23.asm", "out.bin"] :=
  ⟨(clean_removes_only_out_files ["software23.asm", "out.bin"]).1
      ("out.bin") (by decide) (by decide),
   (clean_removes_only_out_files ["software23.asm", "out.bin"]).2
      ("software23.asm") (by decide) (by decide)⟩

/-- Once FACEPLATE_H is defined, including faceplate.h is a no-op: the
opening ifndef skips every line up to the closing endif. -/
theorem includeFaceplate_noop (s : PpState)
    (h : "FACEPLATE_H" ∈ s.defined) : includeFaceplate s = s := by
  have step : includeFaceplate s =
      (if ("FACEPLATE_H" ∈ s.defined)
       then ppRun s 1 (faceplate_h.drop 1)
       else ppRun s 0 (faceplate_h.drop 1)) := rfl
  rw [step, if_pos h]
  rfl

/-- After any inclusion of faceplate.h, FACEPLATE_H is defined. -/
theorem includeFaceplate_defines (s : PpState) :
    "FACEPLATE_H" ∈ (includeFaceplate s).defined := by
  by_cases h : "FACEPLATE_H" ∈ s.defined
  · rw [includeFaceplate_noop s h]; exact h
  · have step : includeFaceplate s =
        (if ("FACEPLATE_H" ∈ s.defined)
         then ppRun s 1 (faceplate_h.drop 1)
         else ppRun s 0 (faceplate_h.drop 1)) := rfl
    rw [step, if_neg h]
    show ("FACEPLATE_H" ∈ s.defined ++ ["FACEPLATE_H"])
    simp

/-- Including faceplate.h after it has already been included changes
nothing. -/
theorem includeN_succ_eq (n : Nat) (s : PpState) :
    includeN n (includeFaceplate s) = includeFaceplate s := by
  induction n generalizing s with
  | zero => rfl
  | succ n ih =>
      show includeN n (includeFaceplate (includeFaceplate s)) =
        includeFaceplate s
      rw [includeFaceplate_noop _ (includeFaceplate_defines s)]
      exact ih s

/-- C10: including faceplate.h any number of times in a translation unit
has exactly the effect of one inclusion, which emits the four function
declarations exactly once — the FACEPLATE_H include guard makes every
inclusion after the first expand to nothing. -/
theorem faceplate_h_include_guard :
    (∀ n : Nat, includeN (n+1) ppInit = includeN 1 ppInit) ∧
    (includeN 1 ppInit).emitted =
      ["faceplate_spi_init", "faceplate_clear_display",
       "faceplate_send_upd_command", "faceplate_update_from_upd_if_dirty"] :=
  ⟨fun n => includeN_succ_eq n ppInit, rfl⟩
